import Mathlib

/-!
Verification of the dante-cli command-line front end (`src/main.rs`).

The CLI dispatches over subcommands; the control subcommands parse a Dante
protocol version, a receiver IPv4 address, ASCII-only transmitter names, and a
receiver channel index, and then invoke `make_subscription` /
`clear_subscription` on a `DanteDeviceManager` from the external
`dante_control_rs` library.  The batch command `MakeSubscriptionsFromFile`
reads lines from a file (`BufReader::lines().flatten()`), splits each line at
the first `|` into a version prefix and a command, classifies the command as a
create request when it contains `:` and a clear request otherwise, and
propagates every per-line error with `?` out of `main`.

We embed the CLI's parsing and dispatch logic as executable Lean functions and
model the external library calls as an oracle `net : NetCall → Except
ControlError Unit`; the functions return the list of oracle calls actually
attempted together with the `Result` value `main` would propagate.
-/

namespace DanteCli

/-- Decidable equality for `Except`, so that concrete runs of the embedded CLI
can be checked by evaluation. -/
instance {ε α : Type} [DecidableEq ε] [DecidableEq α] : DecidableEq (Except ε α) := fun a b =>
  match a, b with
  | .ok x, .ok y =>
    if h : x = y then .isTrue (by rw [h]) else .isFalse (by simp [h])
  | .error x, .error y =>
    if h : x = y then .isTrue (by rw [h]) else .isFalse (by simp [h])
  | .ok _, .error _ => .isFalse (by simp)
  | .error _, .ok _ => .isFalse (by simp)

/-- `SubscriptionError` from `src/main.rs` (lines 128-132). -/
inductive SubscriptionError
  | VersionParse
deriving DecidableEq, Repr

/-- `ParsingError` from `src/main.rs` (lines 135-147). -/
inductive ParsingError
  | TxRxDelimiter
  | TxDelimiter
  | RxDelimiter
  | VersionDelimiter
  | RxChanIndexParse
deriving DecidableEq, Repr

/-- Modelled from the spec: the control-protocol client's typed call outcomes
(`DeviceRejectedError`, `TimeoutError`, `NetworkError`); the concrete error type
returned by `make_subscription` / `clear_subscription` lives in the external
`dante_control_rs` library, which is not part of this repository's sources. -/
inductive ControlError
  | deviceRejected
  | timeout
  | network
deriving DecidableEq, Repr

/-- The error value `main` can propagate through `Box<dyn Error>`: the CLI's own
two error enums, the standard library's `AddrParseError` from
`Ipv4Addr::from_str`, the `ascii` crate's error from `as_ascii_str`, an error
returned by a device-manager control call, and a discovery start failure. -/
inductive CliError
  | sub (e : SubscriptionError)
  | parsing (e : ParsingError)
  | addrParse
  | asciiConv
  | control (e : ControlError)
  | discovery
deriving DecidableEq, Repr

/-- Modelled from the spec: `DanteVersion` lives in the external
`dante_control_rs` library; the spec (§3 ProtocolVersion, two supported release
lines) and the CLI's own help text name the recognized release lines
`"4.4.1.3"` and `"4.2.1.3"`. -/
inductive DanteVersion
  | v4_4_1_3
  | v4_2_1_3
deriving DecidableEq, Repr

/-- Modelled from the spec: `DanteVersion::from_string` recognizes exactly the
two release-line strings and rejects everything else (spec §3: "a version
string that does not match a known release line is rejected before any network
I/O occurs"). -/
def DanteVersion.from_string (s : String) : Option DanteVersion :=
  if s = "4.4.1.3" then some .v4_4_1_3
  else if s = "4.2.1.3" then some .v4_2_1_3
  else none

/-- An IPv4 address, as produced by `std::net::Ipv4Addr::from_str`. -/
structure Ipv4Addr where
  a : Nat
  b : Nat
  c : Nat
  d : Nat
deriving DecidableEq, Repr

/-- One dotted-decimal octet of an IPv4 address, per the Rust standard
library's parser: one to three decimal digits, no leading zero except `"0"`
itself, value at most 255. -/
def parseOctet (cs : List Char) : Option Nat :=
  if cs ≠ [] ∧ cs.all Char.isDigit ∧ cs.length ≤ 3 ∧ (cs.head? = some '0' → cs = ['0']) then
    let n := cs.foldl (fun a c => a * 10 + (c.toNat - 48)) 0
    if n ≤ 255 then some n else none
  else none

/-- Split a character list at every occurrence of `c` (like `str::split`). -/
def splitOnCharList (c : Char) : List Char → List (List Char)
  | [] => [[]]
  | x :: xs =>
    match splitOnCharList c xs with
    | [] => [[]]
    | l :: ls => if x = c then [] :: l :: ls else (x :: l) :: ls

/-- `std::net::Ipv4Addr::from_str`: exactly four octets separated by `.`. -/
def Ipv4Addr.from_str (s : String) : Option Ipv4Addr :=
  match splitOnCharList '.' s.data with
  | [oa, ob, oc, od] =>
    match parseOctet oa, parseOctet ob, parseOctet oc, parseOctet od with
    | some x, some y, some z, some w => some ⟨x, y, z, w⟩
    | _, _, _, _ => none
  | _ => none

/-- The `ascii` crate's `as_ascii_str`: succeeds (returning the same
characters) exactly when every byte of the string is ASCII. -/
def as_ascii_str (s : String) : Option String :=
  if s.data.all (fun c => c.toNat ≤ 127) then some s else none

/-- The digit part of `str::parse::<u16>()`: one or more decimal digits whose
value is below 2^16; anything else (empty input, non-digit characters,
overflow) is an error. -/
def parseU16Digits (cs : List Char) : Option Nat :=
  if cs ≠ [] ∧ cs.all Char.isDigit then
    if cs.foldl (fun a c => a * 10 + (c.toNat - 48)) 0 < 65536 then
      some (cs.foldl (fun a c => a * 10 + (c.toNat - 48)) 0)
    else none
  else none

/-- Rust's `str::parse::<u16>()`: an optional leading `+`, then one or more
decimal digits, value below 2^16; a `-` sign is rejected like any other
non-digit character. -/
def parseU16 (s : String) : Option Nat :=
  parseU16Digits (if s.data.head? = some '+' then s.data.tail else s.data)

/-- `str::split_once` on the underlying character list: split at the first
occurrence of `c`, or `none` when `c` does not occur. -/
def splitOnceList (c : Char) : List Char → Option (List Char × List Char)
  | [] => none
  | x :: xs =>
    if x = c then some ([], xs)
    else
      match splitOnceList c xs with
      | some (l, r) => some (x :: l, r)
      | none => none

/-- Rust's `str::split_once(c)`. -/
def splitOnce (c : Char) (s : String) : Option (String × String) :=
  match splitOnceList c s.data with
  | none => none
  | some (l, r) => some (⟨l⟩, ⟨r⟩)

/-- A call attempted on the `DanteDeviceManager`: `make_subscription(version,
receiver_ip, receiver_channel_index, transmitter_name, transmitter_channel_name)`
or `clear_subscription(version, receiver_ip, receiver_channel_index)`. -/
inductive NetCall
  | makeSub (version : DanteVersion) (receiver_ip : Ipv4Addr)
      (receiver_channel_index : Nat)
      (transmitter_name transmitter_channel_name : String)
  | clearSub (version : DanteVersion) (receiver_ip : Ipv4Addr)
      (receiver_channel_index : Nat)
deriving DecidableEq, Repr

/-- The create branch of the batch-file loop (`src/main.rs` lines 262-283):
split the command at the first `:` into transmitter and receiver, split each at
the first `@`, parse the receiver channel index as `u16`, parse the receiver
IP, convert both transmitter names to ASCII, and form the `make_subscription`
call, in exactly the source's order of fallible operations. -/
def decodeCreate (version : DanteVersion) (command_string : String) :
    Except CliError NetCall :=
  match splitOnce ':' command_string with
  | none => .error (.parsing .TxRxDelimiter)
  | some (tx, rx) =>
    match splitOnce '@' tx with
    | none => .error (.parsing .TxDelimiter)
    | some (tx_chan, tx_device) =>
      match splitOnce '@' rx with
      | none => .error (.parsing .RxDelimiter)
      | some (rx_chan, rx_ip_string) =>
        match parseU16 rx_chan with
        | none => .error (.parsing .RxChanIndexParse)
        | some rx_chan_index =>
          match Ipv4Addr.from_str rx_ip_string with
          | none => .error .addrParse
          | some receiver_ip =>
            match as_ascii_str tx_device with
            | none => .error .asciiConv
            | some transmitter_name_ascii =>
              match as_ascii_str tx_chan with
              | none => .error .asciiConv
              | some transmitter_channel_name_ascii =>
                .ok (.makeSub version receiver_ip rx_chan_index
                  transmitter_name_ascii transmitter_channel_name_ascii)

/-- The clear branch of the batch-file loop (`src/main.rs` lines 284-295):
split the command at the first `@` into channel index and IP, parse the index
as `u16`, parse the IP, and form the `clear_subscription` call. -/
def decodeClear (version : DanteVersion) (command_string : String) :
    Except CliError NetCall :=
  match splitOnce '@' command_string with
  | none => .error (.parsing .RxDelimiter)
  | some (rx_chan, rx_ip_string) =>
    match parseU16 rx_chan with
    | none => .error (.parsing .RxChanIndexParse)
    | some rx_chan_index =>
      match Ipv4Addr.from_str rx_ip_string with
      | none => .error .addrParse
      | some receiver_ip =>
        .ok (.clearSub version receiver_ip rx_chan_index)

/-- One batch-file line (`src/main.rs` lines 259-262): split at the first `|`
(mandatory, else `ParsingError::VersionDelimiter`), parse the version, then
dispatch on whether the command part contains `:`. -/
def decodeLine (line : String) : Except CliError NetCall :=
  match splitOnce '|' line with
  | none => .error (.parsing .VersionDelimiter)
  | some (version_string, command_string) =>
    match DanteVersion.from_string version_string with
    | none => .error (.sub .VersionParse)
    | some version =>
      if ':' ∈ command_string.data then decodeCreate version command_string
      else decodeClear version command_string

/-- Execute one batch-file line: decode it, and if decoding succeeded attempt
the device-manager call.  Returns the list of calls attempted (empty when the
line failed to decode, so no network I/O happened) and the `Result` the loop
body produces for this line. -/
def processLine (net : NetCall → Except ControlError Unit) (line : String) :
    List NetCall × Except CliError Unit :=
  match decodeLine line with
  | .error e => ([], .error e)
  | .ok call =>
    match net call with
    | .ok _ => ([call], .ok ())
    | .error e => ([call], .error (.control e))

/-- The batch-file loop over the successfully read lines: each line is
processed in order, and any error is propagated by `?`, aborting the loop
(`src/main.rs` lines 258-296). -/
def processLines (net : NetCall → Except ControlError Unit) :
    List String → List NetCall × Except CliError Unit
  | [] => ([], .ok ())
  | l :: ls =>
    match processLine net l with
    | (t, .error e) => (t, .error e)
    | (t, .ok _) =>
      let r := processLines net ls
      (t ++ r.1, r.2)

/-- Placeholder for `std::io::Error`: a line-read failure from
`BufReader::lines()` (I/O error or invalid UTF-8). -/
inductive IoErr
  | err
deriving DecidableEq, Repr

/-- `Iterator::flatten` over `BufReader::lines()`: keep the successfully read
lines, silently dropping every `Err` item (`src/main.rs` line 258). -/
def flattenReads : List (Except IoErr String) → List String
  | [] => []
  | .ok s :: rs => s :: flattenReads rs
  | .error _ :: rs => flattenReads rs

/-- `MakeSubscriptionsFromFile` after the file is opened: iterate the
batch-file loop over the flattened line reads. -/
def processFromFile (net : NetCall → Except ControlError Unit)
    (reads : List (Except IoErr String)) : List NetCall × Except CliError Unit :=
  processLines net (flattenReads reads)

/-- The `Control MakeSubscription` arm of `main` (`src/main.rs` lines 229-252):
parse the version, parse the receiver IP, convert both transmitter names to
ASCII (in that order, each failure propagating via `?`), then call
`make_subscription`. -/
def runMakeSubscription (net : NetCall → Except ControlError Unit)
    (version transmitter_name transmitter_channel_name receiver_ip_string : String)
    (receiver_channel_index : Nat) : List NetCall × Except CliError Unit :=
  match DanteVersion.from_string version with
  | none => ([], .error (.sub .VersionParse))
  | some v =>
    match Ipv4Addr.from_str receiver_ip_string with
    | none => ([], .error .addrParse)
    | some receiver_ip =>
      match as_ascii_str transmitter_name with
      | none => ([], .error .asciiConv)
      | some transmitter_name_ascii =>
        match as_ascii_str transmitter_channel_name with
        | none => ([], .error .asciiConv)
        | some transmitter_channel_name_ascii =>
          match net (.makeSub v receiver_ip receiver_channel_index
              transmitter_name_ascii transmitter_channel_name_ascii) with
          | .ok _ => ([.makeSub v receiver_ip receiver_channel_index
              transmitter_name_ascii transmitter_channel_name_ascii], .ok ())
          | .error e => ([.makeSub v receiver_ip receiver_channel_index
              transmitter_name_ascii transmitter_channel_name_ascii],
              .error (.control e))

/-- The `Control ClearSubscription` arm of `main` (`src/main.rs` lines
298-310): parse the version, parse the receiver IP, then call
`clear_subscription`. -/
def runClearSubscription (net : NetCall → Except ControlError Unit)
    (version receiver_ip_string : String) (receiver_channel_index : Nat) :
    List NetCall × Except CliError Unit :=
  match DanteVersion.from_string version with
  | none => ([], .error (.sub .VersionParse))
  | some v =>
    match Ipv4Addr.from_str receiver_ip_string with
    | none => ([], .error .addrParse)
    | some receiver_ip =>
      match net (.clearSub v receiver_ip receiver_channel_index) with
      | .ok _ => ([.clearSub v receiver_ip receiver_channel_index], .ok ())
      | .error e => ([.clearSub v receiver_ip receiver_channel_index],
          .error (.control e))

/-- The control subcommands of the CLI (`ControlCommands` in `src/main.rs`).
`MakeSubscriptionsFromFile` is embedded with the outcome of reading the file's
lines in place of the file path. -/
inductive ControlCommands
  | MakeSubscription (version transmitter_name transmitter_channel_name
      receiver_ip_string : String) (receiver_channel_index : Nat)
  | ClearSubscription (version receiver_ip_string : String)
      (receiver_channel_index : Nat)
  | MakeSubscriptionsFromFile (reads : List (Except IoErr String))

/-- Dispatch of `main` over the control subcommands (`src/main.rs` lines
228-311). -/
def runControl (net : NetCall → Except ControlError Unit) :
    ControlCommands → List NetCall × Except CliError Unit
  | .MakeSubscription v tn tcn ips idx => runMakeSubscription net v tn tcn ips idx
  | .ClearSubscription v ips idx => runClearSubscription net v ips idx
  | .MakeSubscriptionsFromFile reads => processFromFile net reads

/-- The embeddable CLI commands.  `Monitor` loops forever after a successful
`start_discovery` and never returns normally, so it has no total embedding;
the `Debug` commands are infallible printers. -/
inductive Commands
  | ListDevices
  | Control (c : ControlCommands)

/-- The result of `main` (`src/main.rs` line 149 onward): every arm propagates
its errors with `?`, and `main` ends with `Ok(())`.  `disco` is the outcome of
`DanteDeviceManager::start_discovery`. -/
def mainResult (disco : Except Unit Unit)
    (net : NetCall → Except ControlError Unit) :
    Commands → List NetCall × Except CliError Unit
  | .ListDevices =>
    match disco with
    | .error _ => ([], .error .discovery)
    | .ok _ => ([], .ok ())
  | .Control c =>
    match runControl net c with
    | (t, .error e) => (t, .error e)
    | (t, .ok _) => (t, .ok ())

/-! ### Helper lemmas about the parsing primitives -/

theorem splitOnceList_of_not_mem {c : Char} :
    ∀ {l : List Char}, c ∉ l → splitOnceList c l = none
  | [], _ => rfl
  | x :: xs, h => by
    have hx : ¬ x = c := fun hxc => h (hxc ▸ List.mem_cons_self x xs)
    have hxs : c ∉ xs := fun hm => h (List.mem_cons_of_mem x hm)
    simp [splitOnceList, hx, splitOnceList_of_not_mem hxs]

theorem splitOnceList_append (c : Char) :
    ∀ (l r : List Char), c ∉ l → splitOnceList c (l ++ c :: r) = some (l, r)
  | [], r, _ => by simp [splitOnceList]
  | x :: xs, r, h => by
    have hx : ¬ x = c := fun hxc => h (hxc ▸ List.mem_cons_self x xs)
    have hxs : c ∉ xs := fun hm => h (List.mem_cons_of_mem x hm)
    simp [splitOnceList, hx, splitOnceList_append c xs r hxs]

theorem splitOnce_mk_append (c : Char) (l r : List Char) (h : c ∉ l) :
    splitOnce c ⟨l ++ c :: r⟩ = some (⟨l⟩, ⟨r⟩) := by
  show (match splitOnceList c (l ++ c :: r) with
    | none => none
    | some (l, r) => some (String.mk l, String.mk r)) = some (⟨l⟩, ⟨r⟩)
  rw [splitOnceList_append c l r h]

theorem splitOnce_of_not_mem (c : Char) (s : String) (h : c ∉ s.data) :
    splitOnce c s = none := by
  show (match splitOnceList c s.data with
    | none => none
    | some (l, r) => some (String.mk l, String.mk r)) = none
  rw [splitOnceList_of_not_mem h]

theorem from_string_eq_none {s : String} (h1 : s ≠ "4.4.1.3") (h2 : s ≠ "4.2.1.3") :
    DanteVersion.from_string s = none := by
  simp [DanteVersion.from_string, h1, h2]

theorem as_ascii_str_cases (s : String) :
    as_ascii_str s = some s ∨ as_ascii_str s = none := by
  unfold as_ascii_str
  split
  · exact Or.inl rfl
  · exact Or.inr rfl

/-- Reduction of `decodeLine` on a well-delimited create-form line, leaving the
index, IP and ASCII parsers symbolic. -/
theorem decodeLine_create (vl chanl devl idxl ipl : List Char) (ver : DanteVersion)
    (hv : '|' ∉ vl)
    (hver : DanteVersion.from_string ⟨vl⟩ = some ver)
    (hc1 : ':' ∉ chanl) (hc2 : '@' ∉ chanl) (hd1 : ':' ∉ devl) (hi1 : '@' ∉ idxl) :
    decodeLine ⟨vl ++ '|' :: (chanl ++ '@' :: devl ++ ':' :: idxl ++ '@' :: ipl)⟩
      = (match parseU16 ⟨idxl⟩ with
        | none => .error (.parsing .RxChanIndexParse)
        | some rx_chan_index =>
          match Ipv4Addr.from_str ⟨ipl⟩ with
          | none => .error .addrParse
          | some receiver_ip =>
            match as_ascii_str ⟨devl⟩ with
            | none => .error .asciiConv
            | some transmitter_name_ascii =>
              match as_ascii_str ⟨chanl⟩ with
              | none => .error .asciiConv
              | some transmitter_channel_name_ascii =>
                .ok (.makeSub ver receiver_ip rx_chan_index
                  transmitter_name_ascii transmitter_channel_name_ascii)) := by
  have hsplit1 := splitOnce_mk_append '|' vl
    (chanl ++ '@' :: devl ++ ':' :: idxl ++ '@' :: ipl) hv
  have hmem : ':' ∈ chanl ++ '@' :: devl ++ ':' :: idxl ++ '@' :: ipl := by
    simp
  have hsplit2 : splitOnce ':' ⟨chanl ++ '@' :: devl ++ ':' :: idxl ++ '@' :: ipl⟩
      = some (⟨chanl ++ '@' :: devl⟩, ⟨idxl ++ '@' :: ipl⟩) := by
    have hre : chanl ++ '@' :: devl ++ ':' :: idxl ++ '@' :: ipl
        = (chanl ++ '@' :: devl) ++ ':' :: (idxl ++ '@' :: ipl) := by simp
    rw [hre]
    refine splitOnce_mk_append ':' _ _ ?notmem
    intro hm
    rcases List.mem_append.mp hm with h1 | h1
    · exact hc1 h1
    · rcases List.mem_cons.mp h1 with h2 | h2
      · exact absurd h2 (by decide)
      · exact hd1 h2
  have hsplit3 := splitOnce_mk_append '@' chanl devl hc2
  have hsplit4 := splitOnce_mk_append '@' idxl ipl hi1
  simp only [decodeLine, hsplit1, hver, String.data]
  rw [if_pos hmem]
  simp only [decodeCreate, hsplit2, hsplit3, hsplit4]

/-- Reduction of `decodeLine` on a well-delimited clear-form line, leaving the
index and IP parsers symbolic. -/
theorem decodeLine_clear (vl idxl ipl : List Char) (ver : DanteVersion)
    (hv : '|' ∉ vl)
    (hver : DanteVersion.from_string ⟨vl⟩ = some ver)
    (hni : ':' ∉ idxl) (hi1 : '@' ∉ idxl) (hnip : ':' ∉ ipl) :
    decodeLine ⟨vl ++ '|' :: (idxl ++ '@' :: ipl)⟩
      = (match parseU16 ⟨idxl⟩ with
        | none => .error (.parsing .RxChanIndexParse)
        | some rx_chan_index =>
          match Ipv4Addr.from_str ⟨ipl⟩ with
          | none => .error .addrParse
          | some receiver_ip =>
            .ok (.clearSub ver receiver_ip rx_chan_index)) := by
  have hsplit1 := splitOnce_mk_append '|' vl (idxl ++ '@' :: ipl) hv
  have hnotmem : ':' ∉ idxl ++ '@' :: ipl := by
    intro hm
    rcases List.mem_append.mp hm with h1 | h1
    · exact hni h1
    · rcases List.mem_cons.mp h1 with h2 | h2
      · exact absurd h2 (by decide)
      · exact hnip h2
  have hsplit2 := splitOnce_mk_append '@' idxl ipl hi1
  simp only [decodeLine, hsplit1, hver, String.data]
  rw [if_neg hnotmem]
  simp only [decodeClear, hsplit2]

/-! ### Claims -/

/-- **C1.** A batch-file line `V|TxChan@TxDev:RxIndex@RxIp` decodes into a
`make_subscription` call whose five arguments are exactly the version `V`, the
receiver IP `RxIp`, the receiver channel index `RxIndex`, the transmitter
device name `TxDev` and the transmitter channel name `TxChan`; and a line
`V|RxIndex@RxIp` decodes into a `clear_subscription` call with exactly the
version `V`, the receiver IP `RxIp` and the receiver channel index `RxIndex`. -/
theorem C1_batch_line_decode
    (vl chanl devl idxl ipl : List Char) (ver : DanteVersion) (n : Nat)
    (ip : Ipv4Addr)
    (hv : '|' ∉ vl)
    (hver : DanteVersion.from_string ⟨vl⟩ = some ver)
    (hn : parseU16 ⟨idxl⟩ = some n)
    (hip : Ipv4Addr.from_str ⟨ipl⟩ = some ip) :
    (':' ∉ chanl → '@' ∉ chanl → ':' ∉ devl → '@' ∉ idxl →
      as_ascii_str ⟨devl⟩ = some ⟨devl⟩ → as_ascii_str ⟨chanl⟩ = some ⟨chanl⟩ →
      decodeLine ⟨vl ++ '|' :: (chanl ++ '@' :: devl ++ ':' :: idxl ++ '@' :: ipl)⟩
        = .ok (.makeSub ver ip n ⟨devl⟩ ⟨chanl⟩))
    ∧ (':' ∉ idxl → '@' ∉ idxl → ':' ∉ ipl →
      decodeLine ⟨vl ++ '|' :: (idxl ++ '@' :: ipl)⟩
        = .ok (.clearSub ver ip n)) := by
  constructor
  · intro hc1 hc2 hd1 hi1 hda hca
    rw [decodeLine_create vl chanl devl idxl ipl ver hv hver hc1 hc2 hd1 hi1]
    simp only [hn, hip, hda, hca]
  · intro hni hi1 hnip
    rw [decodeLine_clear vl idxl ipl ver hv hver hni hi1 hnip]
    simp only [hn, hip]

/-- Witness for C1 at the spec's own examples. -/
theorem C1_witness :
    decodeLine "4.2.1.3|Out1@Mixer1:0@10.0.0.9"
      = .ok (.makeSub .v4_2_1_3 ⟨10, 0, 0, 9⟩ 0 "Mixer1" "Out1")
    ∧ decodeLine "4.2.1.3|0@10.0.0.9"
      = .ok (.clearSub .v4_2_1_3 ⟨10, 0, 0, 9⟩ 0) := by
  have h := C1_batch_line_decode "4.2.1.3".data "Out1".data "Mixer1".data
    "0".data "10.0.0.9".data DanteVersion.v4_2_1_3 0 ⟨10, 0, 0, 9⟩
    (by decide) (by decide) (by decide) (by decide)
  exact ⟨h.1 (by decide) (by decide) (by decide) (by decide) (by decide) (by decide),
    h.2 (by decide) (by decide) (by decide)⟩

/-- **C2 counterexample.** With an always-succeeding device manager, a batch
file whose first line carries an unrecognized version and whose second line is
valid aborts at the first line: the result is the first line's error with an
empty call trace, even though the second line on its own decodes and executes a
`clear_subscription` call.  This refutes the claim that a per-line error is
non-fatal to the remaining lines. -/
theorem C2_counterexample :
    processFromFile (fun _ => .ok ())
        [.ok "9.9.9.9|0@10.0.0.9", .ok "4.2.1.3|1@10.0.0.9"]
      = ([], .error (.sub .VersionParse))
    ∧ processLine (fun _ => .ok ()) "4.2.1.3|1@10.0.0.9"
      = ([.clearSub .v4_2_1_3 ⟨10, 0, 0, 9⟩ 1], .ok ()) := by
  decide

/-- **C2 (amended).** In the batch-file operation, an error arising from any
single line (a parse failure or a failed subscription/clear call) is fatal to
the remaining lines: the loop propagates that line's error through `?`, so the
whole file aborts with the first failing line's error and no subsequent line is
processed. -/
theorem C2_batch_error_aborts_file
    (net : NetCall → Except ControlError Unit) (l : String) (ls : List String)
    (e : CliError) (h : (processLine net l).2 = .error e) :
    processLines net (l :: ls) = ((processLine net l).1, .error e) := by
  rcases hpl : processLine net l with ⟨t, r⟩
  rw [hpl] at h
  cases r with
  | error e2 =>
    have he : e2 = e := by
      have := h
      simp only at this
      exact (Except.error.injEq e2 e).mp this
    subst he
    simp only [processLines, hpl]
  | ok u => exact absurd h (by simp)

/-- Witness for the amended C2: a failing first line aborts before a valid
second line. -/
theorem C2_witness :
    (processLine (fun _ => .ok ()) "9.9.9.9|0@10.0.0.9").2
      = .error (.sub .VersionParse)
    ∧ processLines (fun _ => .ok ())
        ["9.9.9.9|0@10.0.0.9", "4.2.1.3|1@10.0.0.9"]
      = ((processLine (fun _ => .ok ()) "9.9.9.9|0@10.0.0.9").1,
          .error (.sub .VersionParse)) :=
  ⟨by decide,
    C2_batch_error_aborts_file (fun _ => .ok ()) "9.9.9.9|0@10.0.0.9"
      ["4.2.1.3|1@10.0.0.9"] (.sub .VersionParse) (by decide)⟩

/-- **C3 counterexample.** A batch-file line with no `|` character — in either
the clear form or the create form — is not accepted: it fails with
`ParsingError::VersionDelimiter` instead of decoding into an operation.  This
refutes the claim that the `ProtocolVersion|` prefix is optional. -/
theorem C3_counterexample :
    decodeLine "0@10.0.0.9" = .error (.parsing .VersionDelimiter)
    ∧ decodeLine "Out1@Mixer1:0@10.0.0.9"
      = .error (.parsing .VersionDelimiter) := by
  decide

/-- **C3 (amended).** The `ProtocolVersion|` prefix on a batch-file line is
mandatory: every line that contains no `|` character fails with
`ParsingError::VersionDelimiter` (and no device-manager call is attempted),
rather than being decoded into an operation. -/
theorem C3_version_prefix_required
    (net : NetCall → Except ControlError Unit) (line : String)
    (h : '|' ∉ line.data) :
    processLine net line = ([], .error (.parsing .VersionDelimiter)) := by
  have hsplit := splitOnce_of_not_mem '|' line h
  simp only [processLine, decodeLine, hsplit]

/-- Witness for the amended C3. -/
theorem C3_witness :
    '|' ∉ ("0@10.0.0.9" : String).data
    ∧ processLine (fun _ => .ok ()) "0@10.0.0.9"
      = ([], .error (.parsing .VersionDelimiter)) :=
  ⟨by decide,
    C3_version_prefix_required (fun _ => .ok ()) "0@10.0.0.9" (by decide)⟩

/-- **C4.** Every version string other than the recognized release lines
`"4.4.1.3"` and `"4.2.1.3"` makes both the make-subscription and the
clear-subscription operation fail with `SubscriptionError::VersionParse`,
whatever the remaining arguments are, and with an empty call trace — the
rejection precedes all other processing and no network attempt occurs. -/
theorem C4_unrecognized_version_rejected
    (net : NetCall → Except ControlError Unit)
    (v tn tcn ips : String) (idx : Nat)
    (h1 : v ≠ "4.4.1.3") (h2 : v ≠ "4.2.1.3") :
    runMakeSubscription net v tn tcn ips idx
      = ([], .error (.sub .VersionParse))
    ∧ runClearSubscription net v ips idx
      = ([], .error (.sub .VersionParse)) := by
  have hv := from_string_eq_none h1 h2
  constructor
  · simp only [runMakeSubscription, hv]
  · simp only [runClearSubscription, hv]

/-- Witness for C4 at the spec's example string `"9.9.9.9"`. -/
theorem C4_witness :
    ("9.9.9.9" : String) ≠ "4.4.1.3" ∧ ("9.9.9.9" : String) ≠ "4.2.1.3"
    ∧ runMakeSubscription (fun _ => .ok ()) "9.9.9.9" "Mixer1" "Out1" "10.0.0.9" 0
      = ([], .error (.sub .VersionParse))
    ∧ runClearSubscription (fun _ => .ok ()) "9.9.9.9" "10.0.0.9" 0
      = ([], .error (.sub .VersionParse)) := by
  have h := C4_unrecognized_version_rejected (fun _ => .ok ())
    "9.9.9.9" "Mixer1" "Out1" "10.0.0.9" 0 (by decide) (by decide)
  exact ⟨by decide, by decide, h.1, h.2⟩

/-- **C5.** A make-subscription request whose transmitter device name or
transmitter channel name contains a non-ASCII character is rejected with the
ASCII-conversion error and an empty call trace — `make_subscription` is never
invoked, so no socket is opened — both for the direct CLI invocation and for a
batch-file create line. -/
theorem C5_non_ascii_rejected_before_network
    (net : NetCall → Except ControlError Unit)
    (v tn tcn ips : String) (idx : Nat) (ver : DanteVersion) (ip : Ipv4Addr)
    (vl chanl devl idxl ipl : List Char) (ver2 : DanteVersion) (n : Nat)
    (ip2 : Ipv4Addr)
    (hver : DanteVersion.from_string v = some ver)
    (hip : Ipv4Addr.from_str ips = some ip)
    (hascii : as_ascii_str tn = none ∨ as_ascii_str tcn = none)
    (hv2 : '|' ∉ vl)
    (hver2 : DanteVersion.from_string ⟨vl⟩ = some ver2)
    (hc1 : ':' ∉ chanl) (hc2 : '@' ∉ chanl) (hd1 : ':' ∉ devl) (hi1 : '@' ∉ idxl)
    (hn : parseU16 ⟨idxl⟩ = some n)
    (hip2 : Ipv4Addr.from_str ⟨ipl⟩ = some ip2)
    (hascii2 : as_ascii_str ⟨devl⟩ = none ∨ as_ascii_str ⟨chanl⟩ = none) :
    runMakeSubscription net v tn tcn ips idx = ([], .error .asciiConv)
    ∧ processLine net
        ⟨vl ++ '|' :: (chanl ++ '@' :: devl ++ ':' :: idxl ++ '@' :: ipl)⟩
      = ([], .error .asciiConv) := by
  constructor
  · rcases hascii with h2 | h2
    · simp only [runMakeSubscription, hver, hip, h2]
    · rcases as_ascii_str_cases tn with h1 | h1
      · simp only [runMakeSubscription, hver, hip, h1, h2]
      · simp only [runMakeSubscription, hver, hip, h1]
  · have hdl : decodeLine
        ⟨vl ++ '|' :: (chanl ++ '@' :: devl ++ ':' :: idxl ++ '@' :: ipl)⟩
        = .error .asciiConv := by
      rw [decodeLine_create vl chanl devl idxl ipl ver2 hv2 hver2 hc1 hc2 hd1 hi1]
      rcases hascii2 with h2 | h2
      · simp only [hn, hip2, h2]
      · rcases as_ascii_str_cases ⟨devl⟩ with h1 | h1
        · simp only [hn, hip2, h1, h2]
        · simp only [hn, hip2, h1]
    simp only [processLine, hdl]

/-- Witness for C5 with the non-ASCII transmitter device name `"Mixér1"`. -/
theorem C5_witness :
    as_ascii_str "Mixér1" = none
    ∧ runMakeSubscription (fun _ => .ok ()) "4.2.1.3" "Mixér1" "Out1" "10.0.0.9" 0
      = ([], .error .asciiConv)
    ∧ processLine (fun _ => .ok ()) "4.2.1.3|Out1@Mixér1:0@10.0.0.9"
      = ([], .error .asciiConv) := by
  have h := C5_non_ascii_rejected_before_network (fun _ => .ok ())
    "4.2.1.3" "Mixér1" "Out1" "10.0.0.9" 0 DanteVersion.v4_2_1_3 ⟨10, 0, 0, 9⟩
    "4.2.1.3".data "Out1".data "Mixér1".data "0".data "10.0.0.9".data
    DanteVersion.v4_2_1_3 0 ⟨10, 0, 0, 9⟩
    (by decide) (by decide) (Or.inl (by decide))
    (by decide) (by decide) (by decide) (by decide) (by decide) (by decide)
    (by decide) (by decide) (Or.inl (by decide))
  exact ⟨by decide, h.1, h.2⟩

/-- **C6 counterexample.** A syntactically valid batch-file line whose receiver
part is an advertised device name rather than an IPv4 address is not accepted:
in both the clear form and the create form it fails with the
`Ipv4Addr::from_str` address-parse error instead of decoding into an
operation.  This refutes the claim that the receiver may be given as a device
name. -/
theorem C6_counterexample :
    decodeLine "4.2.1.3|0@Receiver1" = .error .addrParse
    ∧ decodeLine "4.2.1.3|Out1@Mixer1:0@Receiver1" = .error .addrParse := by
  decide

/-- **C6 (amended).** The receiver part of a batch-file line must be an IPv4
address: whenever `Ipv4Addr::from_str` rejects it (as it does for every device
name), the line fails with the address-parse error and no device-manager call
is attempted, in both the create and the clear form. -/
theorem C6_receiver_must_be_ip
    (net : NetCall → Except ControlError Unit)
    (vl chanl devl idxl ipl : List Char) (ver : DanteVersion) (n : Nat)
    (hv : '|' ∉ vl)
    (hver : DanteVersion.from_string ⟨vl⟩ = some ver)
    (hc1 : ':' ∉ chanl) (hc2 : '@' ∉ chanl) (hd1 : ':' ∉ devl)
    (hni : ':' ∉ idxl) (hi1 : '@' ∉ idxl) (hnip : ':' ∉ ipl)
    (hn : parseU16 ⟨idxl⟩ = some n)
    (hipn : Ipv4Addr.from_str ⟨ipl⟩ = none) :
    processLine net ⟨vl ++ '|' :: (chanl ++ '@' :: devl ++ ':' :: idxl ++ '@' :: ipl)⟩
      = ([], .error .addrParse)
    ∧ processLine net ⟨vl ++ '|' :: (idxl ++ '@' :: ipl)⟩
      = ([], .error .addrParse) := by
  constructor
  · have hdl := decodeLine_create vl chanl devl idxl ipl ver hv hver hc1 hc2 hd1 hi1
    simp only [hn, hipn] at hdl
    simp only [processLine, hdl]
  · have hdl := decodeLine_clear vl idxl ipl ver hv hver hni hi1 hnip
    simp only [hn, hipn] at hdl
    simp only [processLine, hdl]

/-- Witness for the amended C6 with the device name `"Receiver1"`. -/
theorem C6_witness :
    Ipv4Addr.from_str "Receiver1" = none
    ∧ processLine (fun _ => .ok ()) "4.2.1.3|Out1@Mixer1:0@Receiver1"
      = ([], .error .addrParse)
    ∧ processLine (fun _ => .ok ()) "4.2.1.3|0@Receiver1"
      = ([], .error .addrParse) := by
  have h := C6_receiver_must_be_ip (fun _ => .ok ())
    "4.2.1.3".data "Out1".data "Mixer1".data "0".data "Receiver1".data
    DanteVersion.v4_2_1_3 0
    (by decide) (by decide) (by decide) (by decide) (by decide) (by decide)
    (by decide) (by decide) (by decide) (by decide)
  exact ⟨by decide, h.1, h.2⟩

/-- **C7.** For a single direct CLI invocation, every error propagated from the
invoked operation is the process's failure exit: `main` returns exactly that
error for the control commands, and a discovery start failure makes
`ListDevices` return the discovery error. -/
theorem C7_cli_error_is_exit
    (disco : Except Unit Unit) (net : NetCall → Except ControlError Unit)
    (c : ControlCommands) (e : CliError)
    (h : (runControl net c).2 = .error e) :
    (mainResult disco net (.Control c)).2 = .error e
    ∧ (disco = .error () →
        mainResult disco net .ListDevices = ([], .error .discovery)) := by
  constructor
  · rcases hrc : runControl net c with ⟨t, r⟩
    rw [hrc] at h
    cases r with
    | error e2 =>
      simp only [mainResult, hrc]
      exact h
    | ok u => exact absurd h (by simp)
  · intro hd
    subst hd
    simp only [mainResult]

/-- Witness for C7: a direct `ClearSubscription` with an unrecognized version
exits with `SubscriptionError::VersionParse`, and a failed discovery start
exits `ListDevices` with the discovery error. -/
theorem C7_witness :
    (runControl (fun _ => .ok ()) (.ClearSubscription "9.9.9.9" "10.0.0.9" 0)).2
      = .error (.sub .VersionParse)
    ∧ (mainResult (.error ()) (fun _ => .ok ())
        (.Control (.ClearSubscription "9.9.9.9" "10.0.0.9" 0))).2
      = .error (.sub .VersionParse)
    ∧ mainResult (.error ()) (fun _ => .ok ()) .ListDevices
      = ([], .error .discovery) := by
  have h := C7_cli_error_is_exit (.error ()) (fun _ => .ok ())
    (.ClearSubscription "9.9.9.9" "10.0.0.9" 0) (.sub .VersionParse) (by decide)
  exact ⟨by decide, h.1, h.2 rfl⟩

theorem decodeCreate_ne_clearSub (ver : DanteVersion) (cs : String)
    (v2 : DanteVersion) (ip : Ipv4Addr) (n : Nat) :
    decodeCreate ver cs ≠ .ok (.clearSub v2 ip n) := by
  unfold decodeCreate
  repeat' split
  all_goals simp

/-- **C8.** After splitting a batch-file line at the first `|` and parsing the
version, the remainder is dispatched to the create branch exactly when it
contains a `:` character, and to the clear branch otherwise; in particular a
line whose command part contains `:` can never decode to a `clear_subscription`
call. -/
theorem C8_classification_by_colon
    (line vs cs : String) (ver : DanteVersion)
    (hsplit : splitOnce '|' line = some (vs, cs))
    (hver : DanteVersion.from_string vs = some ver) :
    decodeLine line
      = (if ':' ∈ cs.data then decodeCreate ver cs else decodeClear ver cs)
    ∧ (':' ∈ cs.data → ∀ (v2 : DanteVersion) (ip : Ipv4Addr) (n : Nat),
        decodeLine line ≠ .ok (.clearSub v2 ip n)) := by
  have hd : decodeLine line
      = if ':' ∈ cs.data then decodeCreate ver cs else decodeClear ver cs := by
    simp only [decodeLine, hsplit, hver]
  refine ⟨hd, ?_⟩
  intro hmem v2 ip n
  rw [hd, if_pos hmem]
  exact decodeCreate_ne_clearSub ver cs v2 ip n

/-- Witness for C8: the clear-form line `"4.2.1.3|0@room:mixer"`, whose
receiver part contains `:`, is dispatched to the create branch and cannot
decode to a clear call. -/
theorem C8_witness :
    splitOnce '|' "4.2.1.3|0@room:mixer" = some ("4.2.1.3", "0@room:mixer")
    ∧ DanteVersion.from_string "4.2.1.3" = some .v4_2_1_3
    ∧ decodeLine "4.2.1.3|0@room:mixer"
      = (if ':' ∈ ("0@room:mixer" : String).data
        then decodeCreate .v4_2_1_3 "0@room:mixer"
        else decodeClear .v4_2_1_3 "0@room:mixer")
    ∧ decodeLine "4.2.1.3|0@room:mixer"
      ≠ .ok (.clearSub .v4_2_1_3 ⟨10, 0, 0, 9⟩ 0) := by
  have h := C8_classification_by_colon "4.2.1.3|0@room:mixer" "4.2.1.3"
    "0@room:mixer" DanteVersion.v4_2_1_3 (by decide) (by decide)
  exact ⟨by decide, by decide, h.1,
    h.2 (by decide) DanteVersion.v4_2_1_3 ⟨10, 0, 0, 9⟩ 0⟩

theorem parseU16Digits_le {cs : List Char} {n : Nat}
    (h : parseU16Digits cs = some n) : n ≤ 65535 := by
  unfold parseU16Digits at h
  split at h
  · split at h
    · injection h with h
      omega
    · cases h
  · cases h

theorem parseU16_le {s : String} {n : Nat} (h : parseU16 s = some n) :
    n ≤ 65535 := by
  unfold parseU16 at h
  exact parseU16Digits_le h

/-- **C9.** The receiver channel index is a 16-bit unsigned integer: a
batch-file line (in either form) whose index field is rejected by
`str::parse::<u16>()` fails with `ParsingError::RxChanIndexParse` before any
subscription or clear call, and every accepted index value is at most 65535. -/
theorem C9_rx_index_is_u16
    (net : NetCall → Except ControlError Unit)
    (vl chanl devl idxl ipl : List Char) (ver : DanteVersion)
    (hv : '|' ∉ vl)
    (hver : DanteVersion.from_string ⟨vl⟩ = some ver)
    (hc1 : ':' ∉ chanl) (hc2 : '@' ∉ chanl) (hd1 : ':' ∉ devl)
    (hni : ':' ∉ idxl) (hi1 : '@' ∉ idxl) (hnip : ':' ∉ ipl)
    (hn : parseU16 ⟨idxl⟩ = none) :
    processLine net ⟨vl ++ '|' :: (chanl ++ '@' :: devl ++ ':' :: idxl ++ '@' :: ipl)⟩
      = ([], .error (.parsing .RxChanIndexParse))
    ∧ processLine net ⟨vl ++ '|' :: (idxl ++ '@' :: ipl)⟩
      = ([], .error (.parsing .RxChanIndexParse))
    ∧ (∀ (s : String) (k : Nat), parseU16 s = some k → k ≤ 65535) := by
  refine ⟨?_, ?_, fun s k hk => parseU16_le hk⟩
  · have hdl := decodeLine_create vl chanl devl idxl ipl ver hv hver hc1 hc2 hd1 hi1
    simp only [hn] at hdl
    simp only [processLine, hdl]
  · have hdl := decodeLine_clear vl idxl ipl ver hv hver hni hi1 hnip
    simp only [hn] at hdl
    simp only [processLine, hdl]

/-- Witness for C9 at a negative index and an index above 65535. -/
theorem C9_witness :
    parseU16 "-1" = none ∧ parseU16 "70000" = none
    ∧ processLine (fun _ => .ok ()) "4.2.1.3|-1@10.0.0.9"
      = ([], .error (.parsing .RxChanIndexParse))
    ∧ processLine (fun _ => .ok ()) "4.2.1.3|Out1@Mixer1:70000@10.0.0.9"
      = ([], .error (.parsing .RxChanIndexParse)) := by
  have h1 := C9_rx_index_is_u16 (fun _ => .ok ())
    "4.2.1.3".data "Out1".data "Mixer1".data "-1".data "10.0.0.9".data
    DanteVersion.v4_2_1_3
    (by decide) (by decide) (by decide) (by decide) (by decide) (by decide)
    (by decide) (by decide) (by decide)
  have h2 := C9_rx_index_is_u16 (fun _ => .ok ())
    "4.2.1.3".data "Out1".data "Mixer1".data "70000".data "10.0.0.9".data
    DanteVersion.v4_2_1_3
    (by decide) (by decide) (by decide) (by decide) (by decide) (by decide)
    (by decide) (by decide) (by decide)
  exact ⟨by decide, by decide, h1.2.1, h2.1⟩

theorem flattenReads_append_error (pre post : List (Except IoErr String)) :
    flattenReads (pre ++ .error IoErr.err :: post) = flattenReads (pre ++ post) := by
  induction pre with
  | nil => simp [flattenReads]
  | cons r rs ih => cases r <;> simp [flattenReads, ih]

/-- **C10.** A batch-file line whose read fails (an `Err` item from
`BufReader::lines()`) is silently skipped: inserting a failed read anywhere in
the read sequence changes neither the calls attempted nor the final result, and
the lines actually processed are exactly the successfully read ones. -/
theorem C10_failed_reads_skipped
    (net : NetCall → Except ControlError Unit)
    (pre post : List (Except IoErr String)) :
    processFromFile net (pre ++ .error IoErr.err :: post)
      = processFromFile net (pre ++ post)
    ∧ (∀ reads : List (Except IoErr String),
        flattenReads reads
          = reads.filterMap (fun r => match r with
            | .ok s => some s
            | .error _ => none)) := by
  constructor
  · unfold processFromFile
    rw [flattenReads_append_error]
  · intro reads
    induction reads with
    | nil => rfl
    | cons r rs ih => cases r <;> simp [flattenReads, ih]

end DanteCli
